import Mathlib

set_option autoImplicit false

namespace TodoApp

/-! Shallow embedding of the authentication and todo-ownership core of the
backend under src/backend/src (core/security.py, core/config.py,
api/auth.py, api/todos.py).  Time is modelled in whole seconds as an
integer, because python-jose serialises datetime claims with
calendar.timegm, truncating to seconds, and compares integer timestamps.
JWTs are modelled symbolically: a token value records its payload, the
secret it was signed with and its algorithm; decoding with a matching
secret and algorithm recovers the payload and decoding with any other
secret fails (idealised unforgeable signature).  Strings that are not
JWTs at all are a separate constructor and always fail to decode. -/

/-- Claim keys and fixed message strings appearing literally in the source. -/
def sub_key : String := "sub"

def user_id_key : String := "user_id"

def exp_key : String := "exp"

def access_token_cookie : String := "access_token"

def credentials_detail : String := "Could not validate credentials"

def bearer_challenge : String := "Bearer"

def incorrect_credentials_detail : String := "Incorrect email or password"

def internal_error_head : String := "Internal Server Error: "

def unknown_hash_msg : String := "hash could not be identified"

def login_ok_message : String := "Login successful"

def todo_not_found_detail : String := "Todo not found"

/-- Value of a JSON claim in a token payload: the application only ever
stores strings and integer timestamps. -/
inductive CV where
  | str (s : String)
  | num (n : Int)
deriving DecidableEq

/-- A token payload: a Python dict of claims, modelled as an association
list with first-match lookup. -/
abbrev Claims := List (String × CV)

/-- Lookup of payload.get(k): the first entry with the given key. -/
def getClaim : Claims → String → Option CV
  | [], _ => none
  | kv :: rest, k => if kv.1 = k then some kv.2 else getClaim rest k

/-- Python dict update d[k] = v: replaces the value at an existing key,
appends the pair when the key is absent. -/
def setClaim : Claims → String → CV → Claims
  | [], k, v => [(k, v)]
  | kv :: rest, k, v =>
    if kv.1 = k then (k, v) :: setClaim rest k v else kv :: setClaim rest k v

/-- Symbolic JWT: the payload together with the secret and algorithm it
was signed with. -/
structure JwtToken where
  payload : Claims
  secret : String
  alg : String
deriving DecidableEq

/-- A cookie or header value that is supposed to carry a token: either an
actual JWT or an arbitrary non-JWT string (which never decodes). -/
inductive TokenStr where
  | jwt (t : JwtToken)
  | garbage (s : String)
deriving DecidableEq

/-- Python truthiness of the cookie string: only the empty string is
falsy among the values this type models. -/
def tokenFalsy : TokenStr → Bool
  | .jwt _ => false
  | .garbage s => s == ""

/-- Configuration values from core/config.py (Settings): signing secret,
JWT algorithm (default HS256) and expiry in days (default 7). -/
structure Config where
  better_auth_secret : String
  jwt_algorithm : String
  jwt_expiry_days : Int
deriving DecidableEq

/-- Decimal digits of a string, as a number; none when any character is
not a digit or the string is empty. -/
def digitsVal (cs : List Char) : Option Nat :=
  if cs = [] then none
  else if cs.all Char.isDigit then
    some (cs.foldl (fun a c => a * 10 + (c.toNat - 48)) 0)
  else none

/-- Model of Python int() on a canonical decimal string: an optional sign
followed by digits.  Whitespace and underscore tolerance of int() is not
modelled; the application itself never produces such strings. -/
def pyInt (s : String) : Option Int :=
  match s.toList with
  | '-' :: rest => (digitsVal rest).map (fun n => -(n : Int))
  | '+' :: rest => (digitsVal rest).map (fun n => (n : Int))
  | cs => (digitsVal cs).map (fun n => (n : Int))

/-- Expiry validation of python-jose jwt.decode (_validate_exp): a
missing exp claim is accepted; a numeric exp claim is rejected exactly
when exp < now (so a token is still accepted at the exact expiry
second); a string exp claim goes through int() first and is rejected
when unparseable. -/
def exp_ok (p : Claims) (now : Int) : Bool :=
  match getClaim p exp_key with
  | none => true
  | some (CV.num e) => if e < now then false else true
  | some (CV.str s) =>
    match pyInt s with
    | some e => if e < now then false else true
    | none => false

/-- Model of jose jwt.decode(token, secret, algorithms=[alg]) restricted
to the claim sets this application mints (sub, user_id, exp): the
signature check is the symbolic secret and algorithm comparison, then
the expiry claim is validated against the current time.  Validation of
other registered claims (nbf, aud, iss, iat, jti), which never occur in
tokens produced by this code, is not modelled. -/
def jwt_decode (cfg : Config) (ts : TokenStr) (now : Int) : Option Claims :=
  match ts with
  | .garbage _ => none
  | .jwt t =>
    if t.secret = cfg.better_auth_secret ∧ t.alg = cfg.jwt_algorithm then
      if exp_ok t.payload now then some t.payload else none
    else none

/-- Value of a hexadecimal digit, upper or lower case. -/
def hexVal? (c : Char) : Option Nat :=
  if c.isDigit then some (c.toNat - 48)
  else if 'a' ≤ c ∧ c ≤ 'f' then some (c.toNat - 87)
  else if 'A' ≤ c ∧ c ≤ 'F' then some (c.toNat - 55)
  else none

/-- Left-to-right removal of every occurrence of the substring urn: as in
the Python str.replace call inside uuid.UUID. -/
def stripUrn : List Char → List Char
  | 'u' :: 'r' :: 'n' :: ':' :: rest => stripUrn rest
  | c :: rest => c :: stripUrn rest
  | [] => []

/-- Left-to-right removal of every occurrence of the substring uuid: as
in the Python str.replace call inside uuid.UUID. -/
def stripUuid : List Char → List Char
  | 'u' :: 'u' :: 'i' :: 'd' :: ':' :: rest => stripUuid rest
  | c :: rest => c :: stripUuid rest
  | [] => []

def isBrace (c : Char) : Bool := c == '{' || c == '}'

/-- Model of the CPython uuid.UUID(hex) constructor used by
verify_token: remove urn: and uuid: markers, strip surrounding braces,
drop hyphens, then require exactly 32 hexadecimal digits; the resulting
UUID is identified with its 128-bit integer value. -/
def pyUUID (s : String) : Option Nat :=
  let cs0 := stripUuid (stripUrn s.toList)
  let cs1 := ((cs0.dropWhile isBrace).reverse.dropWhile isBrace).reverse
  let cs := cs1.filter (fun c => c != '-')
  if cs.length = 32 then
    (cs.mapM hexVal?).map (fun ds => ds.foldl (fun a d => a * 16 + d) 0)
  else none

/-- Decoded token claims (class TokenData): the subject string and the
user id, the latter identified with the integer value of its UUID. -/
structure TokenData where
  username : String
  user_id : Nat
deriving DecidableEq

/-- Embedding of create_access_token (core/security.py).  The function
copies the caller dict, computes the expiry as now plus the supplied
delta when that delta is truthy (a Python timedelta is falsy exactly
when it is zero) and otherwise now plus the configured number of days,
overwrites the exp entry of the copy, and signs with the configured
secret and algorithm.  The second component of the result is the caller
dict as observable after the call: because of the copy it is returned
unchanged. -/
def create_access_token (cfg : Config) (data : Claims) (expires_delta : Option Int)
    (now : Int) : JwtToken × Claims :=
  let expire : Int :=
    match expires_delta with
    | some d => if d = 0 then now + cfg.jwt_expiry_days * 86400 else now + d
    | none => now + cfg.jwt_expiry_days * 86400
  let to_encode := setClaim data exp_key (CV.num expire)
  (⟨to_encode, cfg.better_auth_secret, cfg.jwt_algorithm⟩, data)

/-- Embedding of verify_token (core/security.py).  jwt.decode is run
first; on its failure, or a missing or falsy sub or user_id claim, or a
user_id that does not parse as a UUID, the function returns none (the
source wraps everything in try/except returning None, so it is total
and all failures collapse to the same result).  A sub or user_id claim
of non-string JSON type also yields none: pydantic rejects a
non-string username and uuid.UUID raises on a non-string argument,
both caught by the blanket except. -/
def verify_token (cfg : Config) (ts : TokenStr) (now : Int) : Option TokenData :=
  match jwt_decode cfg ts now with
  | none => none
  | some payload =>
    match getClaim payload sub_key with
    | some (CV.str u) =>
      match getClaim payload user_id_key with
      | some (CV.str s) =>
        if u = "" ∨ s = "" then none
        else
          match pyUUID s with
          | some v => some ⟨u, v⟩
          | none => none
      | _ => none
    | _ => none

/-- Password digest as handled by passlib CryptContext with the single
scheme pbkdf2_sha256.  A well-formed digest is self-describing (scheme
tag, salt and derived key together); the derived key is modelled
symbolically by the plaintext it was derived from, an idealised
collision-free key-derivation function.  Any string that passlib cannot
identify as a hash of a configured scheme is the malformed case. -/
inductive Digest where
  | pbkdf2_sha256 (salt : Nat) (derived_from : String)
  | malformed (s : String)
deriving DecidableEq

/-- Python exception values that the security code can raise and catch;
PyError.str is the str(e) text. -/
inductive PyError where
  | valueError (msg : String)
deriving DecidableEq

def PyError.str : PyError → String
  | .valueError m => m

/-- Embedding of get_password_hash: pwd_context.hash with a fresh salt
(the salt is an explicit argument here since the embedding is pure). -/
def get_password_hash (password : String) (salt : Nat) : Digest :=
  Digest.pbkdf2_sha256 salt password

/-- Embedding of verify_password: pwd_context.verify, which compares a
recomputed digest for a recognised scheme, and raises UnknownHashError
(a ValueError) when the digest cannot be identified as any configured
scheme.  The source has no exception handling here, so the error
propagates to the caller. -/
def verify_password (plain_password : String) (hashed_password : Digest) :
    Except PyError Bool :=
  match hashed_password with
  | .pbkdf2_sha256 _ pw => .ok (plain_password == pw)
  | .malformed _ => .error (.valueError unknown_hash_msg)

/-- User row of the credential store: id is the 128-bit value of the
UUID primary key. -/
structure User where
  id : Nat
  email : String
  hashed_password : Digest
deriving DecidableEq

/-- UserRead: the user record as exposed to clients, without the hash. -/
structure UserRead where
  id : Nat
  email : String
deriving DecidableEq

/-- Embedding of authenticate_user: first user whose email equals the
given email exactly; none when absent; then password verification, with
the user returned only on success.  A verification error (malformed
stored digest) propagates. -/
def authenticate_user (db : List User) (email password : String) :
    Except PyError (Option User) :=
  match db.find? (fun u => u.email == email) with
  | none => .ok none
  | some user =>
    match verify_password password user.hashed_password with
    | .error e => .error e
    | .ok true => .ok (some user)
    | .ok false => .ok none

/-- Model of fastapi.HTTPException as raised by this code. -/
structure HTTPException where
  status_code : Nat
  detail : String
  www_authenticate : Option String
deriving DecidableEq

/-- The shared 401 response of both cookie dependencies. -/
def credentials_exception : HTTPException :=
  ⟨401, credentials_detail, some bearer_challenge⟩

/-- Incoming request: only the cookie jar matters to this core. -/
structure Request where
  cookies : List (String × TokenStr)
deriving DecidableEq

/-- request.cookies.get k -/
def getCookie (req : Request) (k : String) : Option TokenStr :=
  (req.cookies.find? (fun kv => kv.1 == k)).map (fun kv => kv.2)

/-- Embedding of get_user_id_from_cookie (core/security.py): read the
access_token cookie (absent or empty means unauthenticated), verify the
token, and return the user id claim; every failure raises the same
credentials_exception.  No user-store lookup happens here. -/
def get_user_id_from_cookie (cfg : Config) (req : Request) (now : Int) :
    Except HTTPException Nat :=
  match getCookie req access_token_cookie with
  | none => .error credentials_exception
  | some tok =>
    if tokenFalsy tok then .error credentials_exception
    else
      match verify_token cfg tok now with
      | none => .error credentials_exception
      | some token_data => .ok token_data.user_id

/-- Embedding of get_current_user_from_cookie (core/security.py): as
above but additionally loads the user row for the decoded id and fails
with the same credentials_exception when no such user exists; on
success the user is returned without the hash (UserRead).  The
surrounding try/except re-raises every failure as the same
credentials_exception, so all causes are externally identical. -/
def get_current_user_from_cookie (cfg : Config) (db : List User) (req : Request)
    (now : Int) : Except HTTPException UserRead :=
  match getCookie req access_token_cookie with
  | none => .error credentials_exception
  | some tok =>
    if tokenFalsy tok then .error credentials_exception
    else
      match verify_token cfg tok now with
      | none => .error credentials_exception
      | some token_data =>
        match db.find? (fun u => u.id == token_data.user_id) with
        | none => .error credentials_exception
        | some user => .ok ⟨user.id, user.email⟩

/-- Hexadecimal character of a value below 16, lower case. -/
def hexChar (n : Nat) : Char :=
  if n < 10 then Char.ofNat (48 + n) else Char.ofNat (87 + n)

/-- The 32 hex digits of a 128-bit value, most significant first. -/
def hexDigits32 (v : Nat) : List Char :=
  (List.range 32).map (fun i => hexChar (v / 16 ^ (31 - i) % 16))

/-- Canonical hyphenated string form of a UUID, str(uuid) in Python. -/
def uuid_str (v : Nat) : String :=
  let ds := hexDigits32 v
  ⟨ds.take 8 ++ ['-'] ++ (ds.drop 8).take 4 ++ ['-'] ++ (ds.drop 12).take 4
    ++ ['-'] ++ (ds.drop 16).take 4 ++ ['-'] ++ ds.drop 20⟩

/-- Body of the login request. -/
structure LoginRequest where
  email : String
  password : String
deriving DecidableEq

/-- Model of response.set_cookie as called on login success. -/
structure SetCookie where
  key : String
  value : TokenStr
  httponly : Bool
  secure : Bool
  samesite : String
  max_age : Int
  path : String
deriving DecidableEq

/-- Successful login response: body fields plus the cookie set on the
response. -/
structure LoginSuccess where
  message : String
  user_id : Nat
  access_token : JwtToken
  cookie : SetCookie
deriving DecidableEq

/-- Embedding of login_user (api/auth.py).  Wrong credentials raise the
fixed 401; on success a token is minted over sub and user_id with the
configured days as an explicit delta, the cookie is set and the body
returned.  Any other exception e escaping the body is converted to a
500 whose detail is the string Internal Server Error: followed by
str(e) - the raw internal exception text is echoed to the client. -/
def login_user (cfg : Config) (db : List User) (login_request : LoginRequest)
    (now : Int) : Except HTTPException LoginSuccess :=
  match authenticate_user db login_request.email login_request.password with
  | .error e => .error ⟨500, internal_error_head ++ e.str, none⟩
  | .ok none => .error ⟨401, incorrect_credentials_detail, some bearer_challenge⟩
  | .ok (some user) =>
    let access_token :=
      (create_access_token cfg
        [(sub_key, CV.str user.email), (user_id_key, CV.str (uuid_str user.id))]
        (some (cfg.jwt_expiry_days * 86400)) now).1
    .ok
      { message := login_ok_message
        user_id := user.id
        access_token := access_token
        cookie :=
          { key := access_token_cookie
            value := .jwt access_token
            httponly := true
            secure := true
            samesite := "none"
            max_age := cfg.jwt_expiry_days * 24 * 60 * 60
            path := "/" } }

/-- Todo row: id and owner are 128-bit UUID values. -/
structure Todo where
  id : Nat
  owner : Nat
  title : String
  description : String
  completed : Bool
deriving DecidableEq

/-- Modelled from the spec: the request body for create (TodoCreate,
whose schema module is not under src); it carries the content fields
and possibly a client-supplied owner value, which per the spec must be
ignored. -/
structure TodoCreate where
  title : String
  description : String
  completed : Bool
  owner : Option Nat
deriving DecidableEq

/-- Modelled from the spec: the full-update body (TodoUpdate). -/
structure TodoUpdate where
  title : String
  description : String
  completed : Bool
deriving DecidableEq

/-- Modelled from the spec: the partial-update body (TodoPatch); absent
fields leave the stored value unchanged. -/
structure TodoPatch where
  title : Option String
  description : Option String
  completed : Option Bool
deriving DecidableEq

/-- The uniform not-found failure of the todo store. -/
def todo_not_found : HTTPException := ⟨404, todo_not_found_detail, none⟩

/-- Modelled from the spec: the single atomic lookup filtered by id AND
owner that every non-create operation of the missing
services/todo_service.py performs. -/
def owned_lookup (store : List Todo) (todo_id user_id : Nat) : Option Todo :=
  store.find? (fun t => t.id == todo_id && t.owner == user_id)

/-- Modelled from the spec: the shared shape of every non-create store
operation - one ownership-filtered fetch, the uniform not-found when no
row matches, otherwise the operation result computed from the fetched
row. -/
def withOwned {α : Type} (store : List Todo) (todo_id user_id : Nat)
    (f : Todo → α) : Except HTTPException α :=
  match owned_lookup store todo_id user_id with
  | none => .error todo_not_found
  | some t => .ok (f t)

/-- Modelled from the spec: TodoService.create_todo (services/
todo_service.py is not under src).  The new row is stamped with the
caller id regardless of any owner field of the body; the fresh row id
is an explicit argument since the embedding is pure. -/
def TodoService.create_todo (store : List Todo) (todo_create : TodoCreate)
    (new_id user_id : Nat) : Todo × List Todo :=
  let t : Todo :=
    ⟨new_id, user_id, todo_create.title, todo_create.description,
      todo_create.completed⟩
  (t, store ++ [t])

/-- Modelled from the spec: TodoService.get_todo_by_id; the ownership-
filtered fetch, a uniform not-found when no row matches. -/
def TodoService.get_todo_by_id (store : List Todo) (todo_id user_id : Nat) :
    Except HTTPException Todo :=
  withOwned store todo_id user_id (fun t => t)

/-- Modelled from the spec: TodoService.get_todos_by_user; the rows of
the caller only, paginated by an offset and a page size bounded by 100
(the spec bounds the page size; 100 is its stated default bound). -/
def TodoService.get_todos_by_user (store : List Todo) (user_id skip limit : Nat) :
    List Todo :=
  (((store.filter (fun t => t.owner == user_id)).drop skip).take (min limit 100))

/-- Modelled from the spec: TodoService.update_todo; ownership-filtered
fetch, then a single update statement scoped by id and owner. -/
def TodoService.update_todo (store : List Todo) (todo_id : Nat)
    (todo_update : TodoUpdate) (user_id : Nat) :
    Except HTTPException (Todo × List Todo) :=
  withOwned store todo_id user_id (fun t =>
    let t2 : Todo :=
      { t with
        title := todo_update.title
        description := todo_update.description
        completed := todo_update.completed }
    (t2, store.map (fun x => if x.id == todo_id && x.owner == user_id then t2 else x)))

/-- Modelled from the spec: TodoService.patch_todo; as update but absent
fields keep their stored values. -/
def TodoService.patch_todo (store : List Todo) (todo_id : Nat)
    (todo_patch : TodoPatch) (user_id : Nat) :
    Except HTTPException (Todo × List Todo) :=
  withOwned store todo_id user_id (fun t =>
    let t2 : Todo :=
      { t with
        title := todo_patch.title.getD t.title
        description := todo_patch.description.getD t.description
        completed := todo_patch.completed.getD t.completed }
    (t2, store.map (fun x => if x.id == todo_id && x.owner == user_id then t2 else x)))

/-- Modelled from the spec: TodoService.delete_todo; ownership-filtered
fetch, then a single delete scoped by id and owner. -/
def TodoService.delete_todo (store : List Todo) (todo_id user_id : Nat) :
    Except HTTPException (List Todo) :=
  withOwned store todo_id user_id (fun _ =>
    store.filter (fun x => !(x.id == todo_id && x.owner == user_id)))

/-- Modelled from the spec: TodoService.toggle_todo_completion; the same
ownership-filtered fetch, then the completion flag is flipped by one
update scoped by id and owner. -/
def TodoService.toggle_todo_completion (store : List Todo) (todo_id user_id : Nat) :
    Except HTTPException (Todo × List Todo) :=
  withOwned store todo_id user_id (fun t =>
    let t2 : Todo := { t with completed := !t.completed }
    (t2, store.map (fun x => if x.id == todo_id && x.owner == user_id then t2 else x)))

/-- The defaults of the query parameters of the GET /todos route, as
written in the signature of get_todos in api/todos.py. -/
def get_todos_default_skip : Nat := 0

def get_todos_default_limit : Nat := 100

/-- Embedding of the create_todo route (api/todos.py): resolve the
caller id from the cookie, then create with that id. -/
def Api.create_todo (cfg : Config) (req : Request) (now : Int)
    (store : List Todo) (todo_create : TodoCreate) (new_id : Nat) :
    Except HTTPException (Todo × List Todo) := do
  let user_id ← get_user_id_from_cookie cfg req now
  .ok (TodoService.create_todo store todo_create new_id user_id)

/-- Embedding of the get_todo route (api/todos.py). -/
def Api.get_todo (cfg : Config) (req : Request) (now : Int)
    (store : List Todo) (todo_id : Nat) : Except HTTPException Todo := do
  let user_id ← get_user_id_from_cookie cfg req now
  TodoService.get_todo_by_id store todo_id user_id

/-- Embedding of the get_todos route (api/todos.py). -/
def Api.get_todos (cfg : Config) (req : Request) (now : Int)
    (store : List Todo) (skip limit : Nat) :
    Except HTTPException (List Todo) := do
  let user_id ← get_user_id_from_cookie cfg req now
  .ok (TodoService.get_todos_by_user store user_id skip limit)

/-- Embedding of the update_todo route (api/todos.py). -/
def Api.update_todo (cfg : Config) (req : Request) (now : Int)
    (store : List Todo) (todo_id : Nat) (todo_update : TodoUpdate) :
    Except HTTPException (Todo × List Todo) := do
  let user_id ← get_user_id_from_cookie cfg req now
  TodoService.update_todo store todo_id todo_update user_id

/-- Embedding of the patch_todo route (api/todos.py). -/
def Api.patch_todo (cfg : Config) (req : Request) (now : Int)
    (store : List Todo) (todo_id : Nat) (todo_patch : TodoPatch) :
    Except HTTPException (Todo × List Todo) := do
  let user_id ← get_user_id_from_cookie cfg req now
  TodoService.patch_todo store todo_id todo_patch user_id

/-- Embedding of the delete_todo route (api/todos.py). -/
def Api.delete_todo (cfg : Config) (req : Request) (now : Int)
    (store : List Todo) (todo_id : Nat) : Except HTTPException (List Todo) := do
  let user_id ← get_user_id_from_cookie cfg req now
  TodoService.delete_todo store todo_id user_id

/-- Embedding of the toggle_todo_completion route (api/todos.py). -/
def Api.toggle_todo_completion (cfg : Config) (req : Request) (now : Int)
    (store : List Todo) (todo_id : Nat) :
    Except HTTPException (Todo × List Todo) := do
  let user_id ← get_user_id_from_cookie cfg req now
  TodoService.toggle_todo_completion store todo_id user_id

/-! Concrete fixtures used by witnesses and counterexamples. -/

def cfgC : Config :=
  { better_auth_secret := "secret-1", jwt_algorithm := "HS256", jwt_expiry_days := 7 }

def emailC : String := "u@example.com"

def uuidStrC : String := "12345678-1234-5678-1234-567812345678"

def uuidValC : Nat := 0x12345678123456781234567812345678

def dataC : Claims := [(sub_key, CV.str emailC), (user_id_key, CV.str uuidStrC)]

def tokC : JwtToken :=
  { payload := dataC, secret := cfgC.better_auth_secret, alg := cfgC.jwt_algorithm }

def tokExpC : JwtToken :=
  { payload := dataC ++ [(exp_key, CV.num 50)]
    secret := cfgC.better_auth_secret
    alg := cfgC.jwt_algorithm }

def reqC : Request := { cookies := [(access_token_cookie, TokenStr.jwt tokC)] }

def reqEmptyC : Request := { cookies := [] }

def plainC : String := "pw-1"

def badStrC : String := "nothash"

def badDigestC : Digest := Digest.malformed badStrC

def userC : User :=
  { id := 1, email := emailC, hashed_password := get_password_hash plainC 3 }

def dbC : List User := [userC]

def corruptUserC : User := { id := 7, email := emailC, hashed_password := badDigestC }

def lrC : LoginRequest := { email := emailC, password := plainC }

def garbageStrC : String := "not-a-jwt"

def todoC : Todo :=
  { id := 5, owner := uuidValC, title := "buy milk", description := "2l", completed := false }

def storeC : List Todo := [todoC]

def tcC : TodoCreate :=
  { title := "new todo", description := "d", completed := false, owner := some 999 }

def updC : TodoUpdate := { title := "t2", description := "d2", completed := true }

def pchC : TodoPatch := { title := none, description := none, completed := some true }

/-! Helper lemmas. -/

theorem except_bind_ok {ε α β : Type} (a : α) (f : α → Except ε β) :
    (Except.ok (ε := ε) a >>= f) = f a := rfl

theorem getClaim_setClaim_self (p : Claims) (k : String) (v : CV) :
    getClaim (setClaim p k v) k = some v := by
  induction p with
  | nil => simp [getClaim, setClaim]
  | cons kv rest ih =>
    by_cases h : kv.1 = k
    · simp [setClaim, getClaim, h, ih]
    · simp [setClaim, getClaim, h, ih]

theorem getClaim_setClaim_ne (p : Claims) (k k2 : String) (v : CV) (h : k2 ≠ k) :
    getClaim (setClaim p k v) k2 = getClaim p k2 := by
  have hk : ¬ k = k2 := fun hh => h hh.symm
  induction p with
  | nil => simp [getClaim, setClaim, hk]
  | cons kv rest ih =>
    by_cases hkv : kv.1 = k
    · have hkv2 : ¬ kv.1 = k2 := fun hh => h (hh ▸ hkv ▸ rfl)
      simp [setClaim, getClaim, hkv, hk, hkv2, ih]
    · simp [setClaim, getClaim, hkv, ih]

theorem owned_lookup_eq_some (store : List Todo) (todo_id user_id : Nat) (t : Todo)
    (h : owned_lookup store todo_id user_id = some t) :
    t ∈ store ∧ t.id = todo_id ∧ t.owner = user_id := by
  have hmem := List.mem_of_find?_eq_some h
  have hp := List.find?_some h
  simp only [Bool.and_eq_true, beq_iff_eq] at hp
  exact ⟨hmem, hp.1, hp.2⟩

theorem owned_lookup_isSome_iff (store : List Todo) (todo_id user_id : Nat) :
    (owned_lookup store todo_id user_id).isSome = true ↔
      ∃ t ∈ store, t.id = todo_id ∧ t.owner = user_id := by
  constructor
  · intro h
    match hl : owned_lookup store todo_id user_id with
    | some t =>
      rcases owned_lookup_eq_some store todo_id user_id t hl with ⟨h1, h2, h3⟩
      exact ⟨t, h1, h2, h3⟩
    | none => rw [hl] at h; simp at h
  · rintro ⟨t, hmem, hid, hown⟩
    match hl : owned_lookup store todo_id user_id with
    | some _ => simp
    | none =>
      have := List.find?_eq_none.mp hl t hmem
      simp [hid, hown] at this

theorem withOwned_error {A : Type} (store : List Todo) (todo_id user_id : Nat)
    (f : Todo → A) (e : HTTPException)
    (h : withOwned store todo_id user_id f = .error e) : e = todo_not_found := by
  unfold withOwned at h
  match hl : owned_lookup store todo_id user_id with
  | none => rw [hl] at h; exact (Except.error.inj h).symm
  | some t => rw [hl] at h; exact Except.noConfusion h

theorem withOwned_ok_iff {A : Type} (store : List Todo) (todo_id user_id : Nat)
    (f : Todo → A) :
    (∃ r, withOwned store todo_id user_id f = .ok r) ↔
      ∃ t ∈ store, t.id = todo_id ∧ t.owner = user_id := by
  rw [← owned_lookup_isSome_iff]
  constructor
  · rintro ⟨r, hr⟩
    unfold withOwned at hr
    match hl : owned_lookup store todo_id user_id with
    | none => rw [hl] at hr; exact Except.noConfusion hr
    | some t => simp [hl]
  · intro h
    match hl : owned_lookup store todo_id user_id with
    | none => rw [hl] at h; exact Bool.noConfusion h
    | some t => exact ⟨f t, by unfold withOwned; rw [hl]⟩

theorem withOwned_ok_elim {A : Type} (store : List Todo) (todo_id user_id : Nat)
    (f : Todo → A) (r : A) (h : withOwned store todo_id user_id f = .ok r) :
    ∃ t, owned_lookup store todo_id user_id = some t ∧ r = f t := by
  unfold withOwned at h
  match hl : owned_lookup store todo_id user_id with
  | none => rw [hl] at h; exact Except.noConfusion h
  | some t => rw [hl] at h; exact ⟨t, rfl, (Except.ok.inj h).symm⟩

/-! Claim C10. -/

/-- C10 (amended): create_access_token sets the exp claim of the token
to now plus the supplied delta when that delta is non-zero, and to now
plus the configured days (in seconds) when the delta is absent or zero
(a zero timedelta is falsy in Python, so the source treats it like an
absent delta); any exp entry already present in the caller claims is
overwritten, every other entry is carried over unchanged, and the
caller dict observable after the call is the original one (the source
works on a copy). -/
theorem create_access_token_exp_and_frame (cfg : Config) (data : Claims)
    (expires_delta : Option Int) (now : Int) :
    (create_access_token cfg data expires_delta now).2 = data ∧
    getClaim (create_access_token cfg data expires_delta now).1.payload exp_key =
      some (CV.num (now +
        match expires_delta with
        | some d => if d = 0 then cfg.jwt_expiry_days * 86400 else d
        | none => cfg.jwt_expiry_days * 86400)) ∧
    (∀ k, k ≠ exp_key →
      getClaim (create_access_token cfg data expires_delta now).1.payload k =
        getClaim data k) := by
  refine ⟨rfl, ?_, ?_⟩
  · match expires_delta with
    | none => simp [create_access_token, getClaim_setClaim_self]
    | some d =>
      by_cases hd : d = 0
      · simp [create_access_token, hd, getClaim_setClaim_self]
      · simp [create_access_token, hd, getClaim_setClaim_self]
  · intro k hk
    match expires_delta with
    | none => simp [create_access_token, getClaim_setClaim_ne data exp_key k _ hk]
    | some d =>
      by_cases hd : d = 0
      · simp [create_access_token, hd, getClaim_setClaim_ne data exp_key k _ hk]
      · simp [create_access_token, hd, getClaim_setClaim_ne data exp_key k _ hk]

/-- C10 counterexample: with an explicit zero delta the claim as stated
requires the expiry to be now plus zero, but the code falls back to the
configured seven days: encoding at time 0 with delta 0 stores exp
604800, not 0. -/
theorem create_access_token_zero_delta_uses_default :
    getClaim (create_access_token cfgC [] (some 0) 0).1.payload exp_key =
      some (CV.num 604800) ∧ (604800 : Int) ≠ 0 + 0 := by
  refine ⟨rfl, by decide⟩

/-- C10 witness: a non-exp claim of the caller dict is carried over
unchanged at a concrete input. -/
theorem create_access_token_exp_and_frame_witness :
    getClaim (create_access_token cfgC dataC (some 60) 0).1.payload sub_key =
      getClaim dataC sub_key :=
  (create_access_token_exp_and_frame cfgC dataC (some 60) 0).2.2 sub_key (by decide)

/-! Claim C3. -/

/-- C3 (amended): for a claims payload with a non-empty subject and a
user-id parsing as a UUID, decoding the token produced by
create_access_token with a positive delta recovers the subject and
user-id at every time strictly before the computed expiry, and yields
the uniform invalid result at every time strictly after the expiry;
at the exact expiry second the token is still accepted (python-jose
rejects only when exp < now), which is where the claim as stated
fails. -/
theorem token_roundtrip (cfg : Config) (data : Claims) (u s : String) (v : Nat)
    (ttl now t1 t2 : Int)
    (hsub : getClaim data sub_key = some (CV.str u)) (hu : u ≠ "")
    (hid : getClaim data user_id_key = some (CV.str s)) (hv : pyUUID s = some v)
    (hkeys : ∀ kv ∈ data, kv.1 = sub_key ∨ kv.1 = user_id_key ∨ kv.1 = exp_key)
    (httl : 0 < ttl) (h1 : t1 < now + ttl) (h2 : now + ttl < t2) :
    verify_token cfg (.jwt (create_access_token cfg data (some ttl) now).1) t1 =
      some ⟨u, v⟩ ∧
    verify_token cfg (.jwt (create_access_token cfg data (some ttl) now).1) t2 =
      none := by
  have hne : ¬ ttl = 0 := by omega
  have hpay : (create_access_token cfg data (some ttl) now).1 =
      ⟨setClaim data exp_key (CV.num (now + ttl)), cfg.better_auth_secret,
        cfg.jwt_algorithm⟩ := by
    simp [create_access_token, hne]
  have hs : ¬ s = "" := by
    intro hh
    rw [hh] at hv
    have h0 : pyUUID "" = none := rfl
    rw [h0] at hv
    exact Option.noConfusion hv
  have hexp : getClaim (setClaim data exp_key (CV.num (now + ttl))) exp_key =
      some (CV.num (now + ttl)) := getClaim_setClaim_self data exp_key _
  have hsub2 : getClaim (setClaim data exp_key (CV.num (now + ttl))) sub_key =
      some (CV.str u) := by
    rw [getClaim_setClaim_ne data exp_key sub_key _ (by decide)]
    exact hsub
  have hid2 : getClaim (setClaim data exp_key (CV.num (now + ttl))) user_id_key =
      some (CV.str s) := by
    rw [getClaim_setClaim_ne data exp_key user_id_key _ (by decide)]
    exact hid
  constructor
  · have hok : exp_ok (setClaim data exp_key (CV.num (now + ttl))) t1 = true := by
      simp only [exp_ok, hexp]
      have : ¬ now + ttl < t1 := by omega
      simp [this]
    rw [hpay]
    simp [verify_token, jwt_decode, hok, hsub2, hid2, hu, hs, hv]
  · have hok : exp_ok (setClaim data exp_key (CV.num (now + ttl))) t2 = false := by
      simp only [exp_ok, hexp]
      have : now + ttl < t2 := by omega
      simp [this]
    rw [hpay]
    simp [verify_token, jwt_decode, hok]

/-- C3 counterexample: decoding exactly at the computed expiry (token
minted at 100 with delta 5, decoded at 105, the stored exp) succeeds,
while the claim as stated requires the uniform invalid result at
expiry. -/
theorem token_valid_at_exact_expiry :
    getClaim (create_access_token cfgC dataC (some 5) 100).1.payload exp_key =
      some (CV.num 105) ∧
    verify_token cfgC (.jwt (create_access_token cfgC dataC (some 5) 100).1) 105 =
      some ⟨emailC, uuidValC⟩ := by
  refine ⟨rfl, rfl⟩

/-- C3 witness: the round-trip theorem applied at a concrete payload,
delta 5, minting time 100, decode times 104 and 106. -/
theorem token_roundtrip_witness :
    verify_token cfgC (.jwt (create_access_token cfgC dataC (some 5) 100).1) 104 =
      some ⟨emailC, uuidValC⟩ ∧
    verify_token cfgC (.jwt (create_access_token cfgC dataC (some 5) 100).1) 106 =
      none :=
  token_roundtrip cfgC dataC emailC uuidStrC uuidValC 5 100 104 106 (by decide)
    (by decide) (by decide) (by decide) (by decide) (by decide) (by decide) (by decide)

/-! Claim C4. -/

/-- C4 (amended): over tokens carrying only the claims this codec mints
(sub, user_id, exp), verify_token succeeds exactly when the signature
secret and algorithm match the configuration, the expiry validation
passes, the subject claim is a non-empty string and the user-id claim
is a string parsing as a UUID; the expiry validation for a numeric exp
claim passes exactly when now is at most exp, so a token is still
accepted at the exact expiry second, which is where the claim as
stated (current time strictly before expiry) fails.  Every failure
yields the single result none and non-JWT input always yields none;
the function is total, modelling that the source never raises. -/
theorem verify_token_characterization (cfg : Config) (t : JwtToken) (now : Int)
    (hkeys : ∀ kv ∈ t.payload, kv.1 = sub_key ∨ kv.1 = user_id_key ∨ kv.1 = exp_key) :
    ((verify_token cfg (.jwt t) now).isSome = true ↔
      (t.secret = cfg.better_auth_secret ∧ t.alg = cfg.jwt_algorithm ∧
        exp_ok t.payload now = true ∧
        (∃ u, getClaim t.payload sub_key = some (CV.str u) ∧ u ≠ "") ∧
        (∃ s v, getClaim t.payload user_id_key = some (CV.str s) ∧
          pyUUID s = some v))) ∧
    (∀ e, getClaim t.payload exp_key = some (CV.num e) →
      (exp_ok t.payload now = true ↔ now ≤ e)) ∧
    (∀ s, verify_token cfg (.garbage s) now = none) := by
  refine ⟨?_, ?_, fun s => rfl⟩
  · by_cases hsec : t.secret = cfg.better_auth_secret ∧ t.alg = cfg.jwt_algorithm
    · by_cases hexp : exp_ok t.payload now = true
      · have hdec : jwt_decode cfg (.jwt t) now = some t.payload := by
          simp only [jwt_decode]
          rw [if_pos hsec, if_pos hexp]
        simp only [verify_token, hdec]
        match hsub : getClaim t.payload sub_key with
        | none =>
          dsimp only
          simp only [Option.isSome_none, Bool.false_eq_true, false_iff]
          rintro ⟨-, -, -, ⟨u, hu2, -⟩, -⟩
          simp at hu2
        | some (CV.num n) =>
          dsimp only
          simp only [Option.isSome_none, Bool.false_eq_true, false_iff]
          rintro ⟨-, -, -, ⟨u, hu2, -⟩, -⟩
          simp at hu2
        | some (CV.str u) =>
          match hid : getClaim t.payload user_id_key with
          | none =>
            dsimp only
            simp only [Option.isSome_none, Bool.false_eq_true, false_iff]
            rintro ⟨-, -, -, -, ⟨s, v, hs2, -⟩⟩
            simp at hs2
          | some (CV.num n) =>
            dsimp only
            simp only [Option.isSome_none, Bool.false_eq_true, false_iff]
            rintro ⟨-, -, -, -, ⟨s, v, hs2, -⟩⟩
            simp at hs2
          | some (CV.str s) =>
            dsimp only
            by_cases hz : u = "" ∨ s = ""
            · rw [if_pos hz]
              simp only [Option.isSome_none, Bool.false_eq_true, false_iff]
              rintro ⟨-, -, -, ⟨u2, hu2, hune⟩, ⟨s2, v, hs2, hpv⟩⟩
              rw [Option.some.injEq, CV.str.injEq] at hu2 hs2
              rcases hz with hz | hz
              · exact hune (hu2 ▸ hz)
              · rw [← hs2, hz] at hpv
                have h0 : pyUUID "" = none := rfl
                rw [h0] at hpv
                exact Option.noConfusion hpv
            · rw [if_neg hz]
              push_neg at hz
              match hpv : pyUUID s with
              | some v =>
                simp only [Option.isSome_some, true_iff]
                exact ⟨hsec.1, hsec.2, hexp, ⟨u, rfl, hz.1⟩, ⟨s, v, rfl, hpv⟩⟩
              | none =>
                simp only [Option.isSome_none, Bool.false_eq_true, false_iff]
                rintro ⟨-, -, -, -, ⟨s2, v, hs2, hpv2⟩⟩
                rw [Option.some.injEq, CV.str.injEq] at hs2
                rw [← hs2, hpv] at hpv2
                exact Option.noConfusion hpv2
      · have hdec : jwt_decode cfg (.jwt t) now = none := by
          simp only [jwt_decode]
          rw [if_pos hsec, if_neg hexp]
        simp only [verify_token, hdec, Option.isSome_none, Bool.false_eq_true, false_iff]
        rintro ⟨-, -, he, -⟩
        exact hexp he
    · have hdec : jwt_decode cfg (.jwt t) now = none := by
        simp only [jwt_decode]
        rw [if_neg hsec]
      simp only [verify_token, hdec, Option.isSome_none, Bool.false_eq_true, false_iff]
      rintro ⟨ha, hb, -⟩
      exact hsec ⟨ha, hb⟩
  · intro e he
    simp only [exp_ok, he]
    by_cases h : e < now
    · simp only [h, if_true, Bool.false_eq_true, false_iff]
      omega
    · simp only [h, if_false, true_iff]
      omega

/-- C4 counterexample: a token whose exp claim equals the current time
is accepted (python-jose rejects only when exp < now), while the claim
as stated requires validity only when the current time is strictly
before the expiry. -/
theorem verify_token_at_expiry_instant :
    verify_token cfgC (.jwt tokExpC) 50 = some ⟨emailC, uuidValC⟩ ∧
    getClaim tokExpC.payload exp_key = some (CV.num 50) ∧ ¬ ((50 : Int) < 50) := by
  refine ⟨rfl, rfl, by decide⟩

/-- C4 witness: the characterization applied to a concrete token; its
garbage conjunct evaluated at a concrete non-JWT string. -/
theorem verify_token_characterization_witness :
    verify_token cfgC (.garbage garbageStrC) 10 = none :=
  (verify_token_characterization cfgC tokC 10 (by decide)).2.2 garbageStrC

/-! Claim C5. -/

/-- C5: when stored emails are unique, authenticate_user returns a user
exactly when that user is stored under the exact given email and the
stored digest verifies the given password; it returns none when no
user has that email, and returns none when the user exists but
verification returns false - it never returns a user on a failed
verification. -/
theorem authenticate_user_correct (db : List User) (email password : String)
    (u : User) (huniq : ∀ x ∈ db, ∀ y ∈ db, x.email = y.email → x = y) :
    (authenticate_user db email password = .ok (some u) ↔
      (u ∈ db ∧ u.email = email ∧
        verify_password password u.hashed_password = .ok true)) ∧
    ((∀ x ∈ db, x.email ≠ email) → authenticate_user db email password = .ok none) ∧
    (∀ x ∈ db, x.email = email →
      verify_password password x.hashed_password = .ok false →
      authenticate_user db email password = .ok none) := by
  refine ⟨?_, ?_, ?_⟩
  · constructor
    · intro h
      unfold authenticate_user at h
      match hf : db.find? (fun x => x.email == email) with
      | none => rw [hf] at h; exact Option.noConfusion (Except.ok.inj h)
      | some x =>
        rw [hf] at h
        dsimp only at h
        have hmem := List.mem_of_find?_eq_some hf
        have hp := List.find?_some hf
        rw [beq_iff_eq] at hp
        match hv : verify_password password x.hashed_password with
        | .error e => rw [hv] at h; exact Except.noConfusion h
        | .ok true =>
          rw [hv] at h
          have : x = u := Option.some.inj (Except.ok.inj h)
          subst this
          exact ⟨hmem, hp, hv⟩
        | .ok false =>
          rw [hv] at h
          exact Option.noConfusion (Except.ok.inj h)
    · rintro ⟨hmem, hemail, hver⟩
      unfold authenticate_user
      match hf : db.find? (fun x => x.email == email) with
      | none =>
        have := List.find?_eq_none.mp hf u hmem
        rw [beq_iff_eq] at this
        exact absurd hemail this
      | some x =>
        have hxmem := List.mem_of_find?_eq_some hf
        have hp := List.find?_some hf
        rw [beq_iff_eq] at hp
        have hxu : x = u := huniq x hxmem u hmem (hp.trans hemail.symm)
        subst hxu
        rw [hf]
        dsimp only
        rw [hver]
  · intro hne
    unfold authenticate_user
    match hf : db.find? (fun x => x.email == email) with
    | none => rw [hf]
    | some x =>
      have hxmem := List.mem_of_find?_eq_some hf
      have hp := List.find?_some hf
      rw [beq_iff_eq] at hp
      exact absurd hp (hne x hxmem)
  · intro x hxmem hemail hver
    unfold authenticate_user
    match hf : db.find? (fun y => y.email == email) with
    | none => rw [hf]
    | some y =>
      have hymem := List.mem_of_find?_eq_some hf
      have hp := List.find?_some hf
      rw [beq_iff_eq] at hp
      have : y = x := huniq y hymem x hxmem (hp.trans hemail.symm)
      subst this
      rw [hf]
      dsimp only
      rw [hver]

/-- C5 witness: the characterization applied to a concrete one-user
store with the matching email and the registered password. -/
theorem authenticate_user_correct_witness :
    authenticate_user dbC emailC plainC = .ok (some userC) :=
  (authenticate_user_correct dbC emailC plainC userC (by decide)).1.mpr
    ⟨by simp [dbC], rfl, rfl⟩

/-! Claim C7. -/

/-- C7 (amended): for a digest that passlib recognises as a pbkdf2
digest, verify_password returns a boolean, true exactly when the digest
was produced from the given plaintext and false on any mismatch; but on
a digest that is not recognisable as any configured scheme the
underlying passlib call raises (UnknownHashError, a ValueError), and
verify_password propagates it instead of returning false, so the claim
as stated fails on malformed digests. -/
theorem verify_password_correct (plain : String) (d : Digest) :
    (∀ salt pw, d = Digest.pbkdf2_sha256 salt pw →
      verify_password plain d = .ok (plain == pw)) ∧
    (verify_password plain d = .ok true ↔ ∃ salt, d = get_password_hash plain salt) ∧
    (∀ s, d = Digest.malformed s →
      verify_password plain d = .error (.valueError unknown_hash_msg)) := by
  refine ⟨?_, ?_, ?_⟩
  · rintro salt pw rfl
    rfl
  · constructor
    · intro h
      match d with
      | .malformed s => exact Except.noConfusion h
      | .pbkdf2_sha256 salt pw =>
        have hb : (plain == pw) = true := Except.ok.inj h
        rw [beq_iff_eq] at hb
        exact ⟨salt, by rw [hb]; rfl⟩
    · rintro ⟨salt, rfl⟩
      simp [verify_password, get_password_hash]
  · rintro s rfl
    rfl

/-- C7 counterexample: on a string that is not a recognisable hash,
verification raises a ValueError instead of returning false, so the
claim that it returns a boolean and never raises for every input is
false. -/
theorem verify_password_raises_on_malformed :
    verify_password plainC badDigestC = .error (.valueError unknown_hash_msg) := rfl

/-- C7 witness: the amended theorem applied to a concrete well-formed
digest produced from the same plaintext. -/
theorem verify_password_correct_witness :
    verify_password plainC (get_password_hash plainC 3) = .ok true :=
  (verify_password_correct plainC (get_password_hash plainC 3)).2.1.mpr ⟨3, rfl⟩

/-! Claim C8. -/

/-- C8: the claim is right and the code is wrong (the spec itself flags
this defect): when an internal exception escapes the login body, the
source formats the 500 detail as the text Internal Server Error:
followed by str(e), echoing the raw internal exception text to the
client.  Concretely, a stored digest that passlib cannot identify makes
verification raise, and the login response body carries the raw passlib
error text. -/
theorem login_echoes_exception_text :
    login_user cfgC [corruptUserC] lrC 0 =
      .error
        { status_code := 500
          detail := internal_error_head ++ unknown_hash_msg
          www_authenticate := none } ∧
    internal_error_head ++ unknown_hash_msg ≠ internal_error_head := by
  refine ⟨rfl, by decide⟩

/-! Claim C6. -/

/-- C6 (amended): every failure of either cookie dependency raises the
one credentials_exception (401, fixed detail, Bearer challenge), so
missing cookie, corrupt token and expired token are externally
indistinguishable on every route; a valid token naming a deleted user
is rejected with the same uniform error by
get_current_user_from_cookie (the resolver of the me route), but
get_user_id_from_cookie - the resolver used by every todo route -
never consults the user store and accepts such a token, which is where
the claim as stated fails. -/
theorem resolve_identity_uniform (cfg : Config) (db : List User) (req : Request)
    (now : Int) :
    (∀ e, get_user_id_from_cookie cfg req now = .error e →
      e = credentials_exception) ∧
    (∀ e, get_current_user_from_cookie cfg db req now = .error e →
      e = credentials_exception) ∧
    (getCookie req access_token_cookie = none →
      get_user_id_from_cookie cfg req now = .error credentials_exception ∧
      get_current_user_from_cookie cfg db req now = .error credentials_exception) ∧
    (∀ tok td, getCookie req access_token_cookie = some tok →
      verify_token cfg tok now = some td →
      (∀ u ∈ db, u.id ≠ td.user_id) →
      get_current_user_from_cookie cfg db req now = .error credentials_exception ∧
      get_user_id_from_cookie cfg req now = .ok td.user_id) := by
  refine ⟨?_, ?_, ?_, ?_⟩
  · intro e he
    unfold get_user_id_from_cookie at he
    match hc : getCookie req access_token_cookie with
    | none => rw [hc] at he; exact (Except.error.inj he).symm
    | some tok =>
      rw [hc] at he
      dsimp only at he
      by_cases hf : tokenFalsy tok = true
      · rw [if_pos hf] at he; exact (Except.error.inj he).symm
      · rw [if_neg hf] at he
        match hv : verify_token cfg tok now with
        | none => rw [hv] at he; exact (Except.error.inj he).symm
        | some td => rw [hv] at he; exact Except.noConfusion he
  · intro e he
    unfold get_current_user_from_cookie at he
    match hc : getCookie req access_token_cookie with
    | none => rw [hc] at he; exact (Except.error.inj he).symm
    | some tok =>
      rw [hc] at he
      dsimp only at he
      by_cases hf : tokenFalsy tok = true
      · rw [if_pos hf] at he; exact (Except.error.inj he).symm
      · rw [if_neg hf] at he
        match hv : verify_token cfg tok now with
        | none => rw [hv] at he; exact (Except.error.inj he).symm
        | some td =>
          rw [hv] at he
          dsimp only at he
          match hu : db.find? (fun u => u.id == td.user_id) with
          | none => rw [hu] at he; exact (Except.error.inj he).symm
          | some u => rw [hu] at he; exact Except.noConfusion he
  · intro hc
    constructor
    · unfold get_user_id_from_cookie
      rw [hc]
    · unfold get_current_user_from_cookie
      rw [hc]
  · intro tok td hc hv hdel
    have hjwt : ∃ t, tok = .jwt t := by
      match tok with
      | .jwt t => exact ⟨t, rfl⟩
      | .garbage s =>
        rw [show verify_token cfg (.garbage s) now = none from rfl] at hv
        exact Option.noConfusion hv
    rcases hjwt with ⟨t, rfl⟩
    have hfalsy : tokenFalsy (.jwt t) = false := rfl
    have hfind : db.find? (fun u => u.id == td.user_id) = none := by
      apply List.find?_eq_none.mpr
      intro u hu
      show ¬ (u.id == td.user_id) = true
      rw [beq_iff_eq]
      exact hdel u hu
    constructor
    · unfold get_current_user_from_cookie
      rw [hc]
      dsimp only
      rw [if_neg (by rw [hfalsy]; exact Bool.false_ne_true)]
      rw [hv]
      dsimp only
      rw [hfind]
    · unfold get_user_id_from_cookie
      rw [hc]
      dsimp only
      rw [if_neg (by rw [hfalsy]; exact Bool.false_ne_true)]
      rw [hv]

/-- C6 counterexample: with an empty user store (the token user was
deleted), the todo-route resolver still succeeds with the id from the
token and a todo operation (the list route) runs and returns, while
the me-route resolver rejects the same request: the claim that a
deleted-user token is rejected on every authenticated route is false. -/
theorem deleted_user_token_accepted_on_todo_routes :
    get_user_id_from_cookie cfgC reqC 10 = .ok uuidValC ∧
    Api.get_todos cfgC reqC 10 [] 0 100 = .ok [] ∧
    get_current_user_from_cookie cfgC [] reqC 10 = .error credentials_exception := by
  refine ⟨rfl, rfl, rfl⟩

/-- C6 witness: the uniformity theorem applied to a concrete request
with no cookie at all. -/
theorem resolve_identity_uniform_witness :
    get_user_id_from_cookie cfgC reqEmptyC 10 = .error credentials_exception ∧
    get_current_user_from_cookie cfgC [] reqEmptyC 10 =
      .error credentials_exception :=
  (resolve_identity_uniform cfgC [] reqEmptyC 10).2.2.1 rfl

/-! Claim C1. -/

/-- C1: once the caller identity has been resolved from the cookie,
each of get, update, patch, delete and toggle succeeds exactly when a
todo with the requested id exists and is owned by the caller; a todo
observed by get is the caller own row; and every failure of these
operations is the one uniform not-found error (status 404, never a
forbidden 403), so a cross-owner access is indistinguishable from the
todo not existing. -/
theorem ownership_isolation (cfg : Config) (req : Request) (now : Int)
    (store : List Todo) (todo_id user_id : Nat) (upd : TodoUpdate) (pch : TodoPatch)
    (hauth : get_user_id_from_cookie cfg req now = .ok user_id) :
    ((∃ t, Api.get_todo cfg req now store todo_id = .ok t) ↔
      ∃ t ∈ store, t.id = todo_id ∧ t.owner = user_id) ∧
    (∀ t, Api.get_todo cfg req now store todo_id = .ok t →
      t ∈ store ∧ t.id = todo_id ∧ t.owner = user_id) ∧
    (∀ e, Api.get_todo cfg req now store todo_id = .error e →
      e = todo_not_found) ∧
    ((∃ r, Api.update_todo cfg req now store todo_id upd = .ok r) ↔
      ∃ t ∈ store, t.id = todo_id ∧ t.owner = user_id) ∧
    (∀ e, Api.update_todo cfg req now store todo_id upd = .error e →
      e = todo_not_found) ∧
    ((∃ r, Api.patch_todo cfg req now store todo_id pch = .ok r) ↔
      ∃ t ∈ store, t.id = todo_id ∧ t.owner = user_id) ∧
    (∀ e, Api.patch_todo cfg req now store todo_id pch = .error e →
      e = todo_not_found) ∧
    ((∃ r, Api.delete_todo cfg req now store todo_id = .ok r) ↔
      ∃ t ∈ store, t.id = todo_id ∧ t.owner = user_id) ∧
    (∀ e, Api.delete_todo cfg req now store todo_id = .error e →
      e = todo_not_found) ∧
    ((∃ r, Api.toggle_todo_completion cfg req now store todo_id = .ok r) ↔
      ∃ t ∈ store, t.id = todo_id ∧ t.owner = user_id) ∧
    (∀ e, Api.toggle_todo_completion cfg req now store todo_id = .error e →
      e = todo_not_found) ∧
    todo_not_found.status_code = 404 ∧ todo_not_found.status_code ≠ 403 := by
  have hg : Api.get_todo cfg req now store todo_id =
      TodoService.get_todo_by_id store todo_id user_id := by
    unfold Api.get_todo
    rw [hauth]
    rfl
  have hu2 : Api.update_todo cfg req now store todo_id upd =
      TodoService.update_todo store todo_id upd user_id := by
    unfold Api.update_todo
    rw [hauth]
    rfl
  have hp2 : Api.patch_todo cfg req now store todo_id pch =
      TodoService.patch_todo store todo_id pch user_id := by
    unfold Api.patch_todo
    rw [hauth]
    rfl
  have hd2 : Api.delete_todo cfg req now store todo_id =
      TodoService.delete_todo store todo_id user_id := by
    unfold Api.delete_todo
    rw [hauth]
    rfl
  have ht2 : Api.toggle_todo_completion cfg req now store todo_id =
      TodoService.toggle_todo_completion store todo_id user_id := by
    unfold Api.toggle_todo_completion
    rw [hauth]
    rfl
  refine ⟨?_, ?_, ?_, ?_, ?_, ?_, ?_, ?_, ?_, ?_, ?_, by decide⟩
  · rw [hg]
    exact withOwned_ok_iff store todo_id user_id (fun t => t)
  · intro t ht3
    rw [hg] at ht3
    obtain ⟨t0, hl0, hrt⟩ :=
      withOwned_ok_elim store todo_id user_id (fun t => t) t ht3
    have hmem := owned_lookup_eq_some store todo_id user_id t0 hl0
    rw [hrt]
    exact hmem
  · intro e he
    rw [hg] at he
    exact withOwned_error store todo_id user_id (fun t => t) e he
  · rw [hu2]
    exact withOwned_ok_iff store todo_id user_id _
  · intro e he
    rw [hu2] at he
    exact withOwned_error store todo_id user_id _ e he
  · rw [hp2]
    exact withOwned_ok_iff store todo_id user_id _
  · intro e he
    rw [hp2] at he
    exact withOwned_error store todo_id user_id _ e he
  · rw [hd2]
    exact withOwned_ok_iff store todo_id user_id _
  · intro e he
    rw [hd2] at he
    exact withOwned_error store todo_id user_id _ e he
  · rw [ht2]
    exact withOwned_ok_iff store todo_id user_id _
  · intro e he
    rw [ht2] at he
    exact withOwned_error store todo_id user_id _ e he

/-- C1 witness: at a concrete authenticated request and one-row store,
the get operation succeeds on the caller own todo id. -/
theorem ownership_isolation_witness :
    ∃ t, Api.get_todo cfgC reqC 10 storeC 5 = .ok t :=
  (ownership_isolation cfgC reqC 10 storeC 5 uuidValC updC pchC rfl).1.mpr
    ⟨todoC, by simp [storeC], rfl, rfl⟩

/-! Claim C2. -/

/-- C2: the created row is stamped with the caller id resolved from the
session cookie, for every request body - in particular for bodies
carrying any client-supplied owner value, which is never read. -/
theorem create_stamps_owner (cfg : Config) (req : Request) (now : Int)
    (store : List Todo) (tc : TodoCreate) (new_id user_id : Nat)
    (hauth : get_user_id_from_cookie cfg req now = .ok user_id) :
    Api.create_todo cfg req now store tc new_id =
      .ok (⟨new_id, user_id, tc.title, tc.description, tc.completed⟩,
        store ++ [⟨new_id, user_id, tc.title, tc.description, tc.completed⟩]) ∧
    (TodoService.create_todo store tc new_id user_id).1.owner = user_id := by
  constructor
  · unfold Api.create_todo
    rw [hauth]
    rfl
  · rfl

/-- C2 witness: at a concrete request whose body carries a foreign owner
value (some 999), the stored row is still owned by the caller id. -/
theorem create_stamps_owner_witness :
    Api.create_todo cfgC reqC 10 storeC tcC 8 =
      .ok (⟨8, uuidValC, tcC.title, tcC.description, tcC.completed⟩,
        storeC ++ [⟨8, uuidValC, tcC.title, tcC.description, tcC.completed⟩]) :=
  (create_stamps_owner cfgC reqC 10 storeC tcC 8 uuidValC rfl).1

/-! Claim C9. -/

/-- C9: the list route defaults are skip 0 and limit 100 (as written in
the get_todos signature), and the page size actually used is bounded:
whatever limit the client supplies, a successful list call returns at
most 100 records, and no more than min limit 100. -/
theorem get_todos_defaults_and_bound (cfg : Config) (req : Request) (now : Int)
    (store : List Todo) (skip limit : Nat) :
    get_todos_default_skip = 0 ∧ get_todos_default_limit = 100 ∧
    (∀ l, Api.get_todos cfg req now store skip limit = .ok l →
      l.length ≤ min limit 100 ∧ l.length ≤ 100) := by
  refine ⟨rfl, rfl, ?_⟩
  intro l hl
  unfold Api.get_todos at hl
  match hres : get_user_id_from_cookie cfg req now with
  | .error e =>
    rw [hres] at hl
    exact Except.noConfusion hl
  | .ok uid =>
    rw [hres] at hl
    have hll : TodoService.get_todos_by_user store uid skip limit = l :=
      Except.ok.inj hl
    rw [← hll]
    unfold TodoService.get_todos_by_user
    constructor
    · exact List.length_take_le _ _
    · exact le_trans (List.length_take_le _ _) (Nat.min_le_right _ _)

/-- C9 witness: the bound applied at a concrete authenticated list call
over an empty store. -/
theorem get_todos_defaults_and_bound_witness :
    ([] : List Todo).length ≤ min 100 100 ∧ ([] : List Todo).length ≤ 100 :=
  (get_todos_defaults_and_bound cfgC reqC 10 [] 0 100).2.2 [] rfl

end TodoApp
